import Mathlib

/-!
Verification of the task evaluation orchestrator of the `target` repository.

The definitions below are a shallow embedding of the Python sources:

* `src/tasks/AbsTask.py` — abstract task protocol: retrieval counters,
  retrieval-metric update, retrieval-performance finalization, retriever
  dispatch, and the `task_run` driver loop;
* `src/tasks/Text2SQLTask.py` — the Text-to-SQL specialization: schema
  rendering, downstream result generation, and downstream metric tracking;
* `src/tasks/TableRetrievalTask.py` — the table-retrieval specialization,
  modelled at the level of the Python abstract-base-class protocol.

Python exceptions are modelled with the `PyError` type; methods that can
raise return `Except PyError` values (or a state paired with an optional
error where mutation before the raise matters). Machine floats of the
source are modelled with exact rationals. Error message strings are
abbreviated from the source (interpolated parts and punctuation dropped).
External collaborators (the generator, the sqlite schema catalog, the
retriever implementations) are passed in as function parameters, mirroring
their role as external capabilities.
-/

namespace Target

/-- Python exception values, tagged by the exception class raised. -/
inductive PyError where
  | typeError (msg : String)
  | valueError (msg : String)
  | keyError (msg : String)
  | attributeError (msg : String)
  | assertionError (msg : String)
deriving Repr, DecidableEq

/-- Embedding of `RetrievalResultDataModel`
(`src/retrievers/RetrieversDataModels.py`, as used by the tasks): dataset
name, query id, the ranked list of retrieved (database id, table id)
pairs, and the table strings filled in later by the orchestrator. -/
structure RetrievalResultDataModel where
  dataset_name : String
  query_id : Nat
  retrieval_results : List (String × String)
  retrieved_tables : List String := []
deriving Repr, DecidableEq

/-- Columnar query batch, the dictionary-of-parallel-lists shape produced
by the dataset loaders and consumed by `AbsTask`. The field names stand
for the `dictionary_keys` column constants: query id, query text,
database id, table id, answer and difficulty columns. -/
structure QueryBatch where
  query_ids : List Nat
  queries : List String
  database_ids : List String
  table_ids : List String
  answers : List String
  difficulties : List String
deriving Repr, DecidableEq

/-- Embedding of `DownstreamGeneratedResultDataModel`
(`src/generators/GeneratorsDataModels.py`, as used by the tasks). -/
structure DownstreamGeneratedResultDataModel where
  dataset_name : String
  query_id : Nat
  generated_results : String
deriving Repr, DecidableEq

/-- The two retrieval counters kept on an `AbsTask` instance
(`src/tasks/AbsTask.py`, lines 78 and 79). -/
structure RetrievalCounters where
  true_positive : Nat
  total_queries_processed : Nat
deriving Repr, DecidableEq

/-- Counter state established by `AbsTask.__init__`
(`src/tasks/AbsTask.py`, lines 78 and 79): both counters start at zero. -/
def initCounters : RetrievalCounters :=
  { true_positive := 0, total_queries_processed := 0 }

/-- The gold pair of the zipped triple hit the retrieved list:
`(db_id, table_id) in retrieval_result.retrieval_results`
(`src/tasks/AbsTask.py`, lines 311 to 314). -/
def goldHit (p : (String × String) × RetrievalResultDataModel) : Bool :=
  decide (p.1 ∈ p.2.retrieval_results)

/-- One iteration of the loop body of `AbsTask._update_retrieval_metrics`
(`src/tasks/AbsTask.py`, lines 306 to 316): bump `true_positive` when the
gold (database id, table id) pair is a member of the retrieved id list,
bump `total_queries_processed` unconditionally. -/
def retrievalStep (acc : RetrievalCounters)
    (p : (String × String) × RetrievalResultDataModel) : RetrievalCounters :=
  { true_positive :=
      if p.1 ∈ p.2.retrieval_results then acc.true_positive + 1
      else acc.true_positive,
    total_queries_processed := acc.total_queries_processed + 1 }

/-- The `zip(query_batch[DATABASE_ID_COL_NAME], query_batch[TABLE_ID_COL_NAME],
new_retrieved_tables)` iteration of `AbsTask._update_retrieval_metrics`;
Python `zip` truncates to the shortest sequence, as `List.zip` does. -/
def zippedRetrieval (batch : QueryBatch)
    (results : List RetrievalResultDataModel) :
    List ((String × String) × RetrievalResultDataModel) :=
  (batch.database_ids.zip batch.table_ids).zip results

/-- Embedding of `AbsTask._update_retrieval_metrics`
(`src/tasks/AbsTask.py`, lines 291 to 316). -/
def updateRetrievalMetrics (s : RetrievalCounters) (batch : QueryBatch)
    (results : List RetrievalResultDataModel) : RetrievalCounters :=
  (zippedRetrieval batch results).foldl retrievalStep s

/-- Embedding of `RetrievalPerformanceDataModel`
(`src/tasks/TasksDataModels.py`, as used by the tasks): the top k and the
accuracy, the latter as an exact rational in place of the Python float. -/
structure RetrievalPerformanceDataModel where
  k : Nat
  accuracy : ℚ
deriving Repr, DecidableEq

/-- Embedding of `AbsTask._calculate_table_retrieval_performance`
(`src/tasks/AbsTask.py`, lines 318 to 339). When no query has been
processed the method raises `ValueError` before reaching the counter
resets; otherwise it builds the performance model and zeroes both
counters. The returned pair carries the performance value and the
counter state after the method. -/
def calculateTableRetrievalPerformance (s : RetrievalCounters)
    (top_k : Nat) :
    Except PyError (RetrievalPerformanceDataModel × RetrievalCounters) :=
  if s.total_queries_processed ≠ 0 then
    .ok ({ k := top_k,
           accuracy := (s.true_positive : ℚ) /
             (s.total_queries_processed : ℚ) },
         { true_positive := 0, total_queries_processed := 0 })
  else
    .error (.valueError "havent processed any queries")

/-- The three-query batch of the round-trip example of the spec: gold
pairs (d1, t1), (d2, t2), (d3, t3). -/
def exampleBatch : QueryBatch :=
  { query_ids := [1, 2, 3], queries := ["q1", "q2", "q3"],
    database_ids := ["d1", "d2", "d3"], table_ids := ["t1", "t2", "t3"],
    answers := ["a1", "a2", "a3"],
    difficulties := ["Default", "Default", "Default"] }

/-- The retrieved lists of the round-trip example of the spec:
[(d1, t1)], [(d9, t9)], [(d3, t3), (d2, t2)] with top_k = 2. -/
def exampleResults : List RetrievalResultDataModel :=
  [ { dataset_name := "ds", query_id := 1,
      retrieval_results := [("d1", "t1")] },
    { dataset_name := "ds", query_id := 2,
      retrieval_results := [("d9", "t9")] },
    { dataset_name := "ds", query_id := 3,
      retrieval_results := [("d3", "t3"), ("d2", "t2")] } ]

/-- Opaque stand-in for the external embedding-service client object that
the standardized retriever shape requires (`CLIENT_KEY_NAME` kwarg). -/
structure Client where
  id : Nat
deriving Repr, DecidableEq

/-- The retriever capability shapes dispatched by `AbsTask`: an instance
of `AbsStandardEmbeddingRetriever` (retrieve_batch additionally needs the
external client), an instance of `AbsCustomEmbeddingRetriever`
(self-contained retrieve_batch, `src/retrievers/AbsCustomEmbeddingRetriever.py`),
or any other object (the `type_name` records the Python type). -/
inductive Retriever where
  | standard (retrieve_batch :
      Client → QueryBatch → String → Nat → List RetrievalResultDataModel)
  | custom (retrieve_batch :
      QueryBatch → String → Nat → List RetrievalResultDataModel)
  | other (type_name : String)

/-- Embedding of `AbsTask._fill_retrieval_results_with_table_strs`
(`src/tasks/AbsTask.py`, lines 224 to 243): sets `retrieved_tables` to
the table string of every retrieved id, in retrieval order. The
dictionary lookup `table_id_to_tables[id]` composed with
`markdown_table_with_headers` is modelled by the total map `table_str`,
since the loader that builds the dictionary is external to the tasks. -/
def fillRetrievalResultsWithTableStrs
    (results : List RetrievalResultDataModel)
    (table_str : (String × String) → String) :
    List RetrievalResultDataModel :=
  results.map (fun r =>
    { r with retrieved_tables := r.retrieval_results.map table_str })

/-- Embedding of `AbsTask._get_retrieval_results`
(`src/tasks/AbsTask.py`, lines 245 to 289). The second component counts
how many `retrieve_batch` invocations the call performs: the missing
client raises `KeyError` before the retriever is ever called, and each
success path makes exactly one batch call. -/
def getRetrievalResultsCounted (retriever : Retriever)
    (query_batch : QueryBatch) (table_str : (String × String) → String)
    (dataset_name : String) (top_k : Nat) (client : Option Client) :
    Except PyError (List RetrievalResultDataModel) × Nat :=
  match retriever with
  | .standard f =>
    match client with
    | none =>
      (.error (.keyError
        "missing kwarg client required for standardized retriever"), 0)
    | some c =>
      (.ok (fillRetrievalResultsWithTableStrs
        (f c query_batch dataset_name top_k) table_str), 1)
  | .custom f =>
    (.ok (fillRetrievalResultsWithTableStrs
      (f query_batch dataset_name top_k) table_str), 1)
  | .other t =>
    (.error (.valueError
      ("retriever passed in doesnt inherit from the base retriever classes "
        ++ t)), 0)

/-- The retrieval results of `AbsTask._get_retrieval_results`, without
the invocation count. -/
def getRetrievalResults (retriever : Retriever) (query_batch : QueryBatch)
    (table_str : (String × String) → String) (dataset_name : String)
    (top_k : Nat) (client : Option Client) :
    Except PyError (List RetrievalResultDataModel) :=
  (getRetrievalResultsCounted retriever query_batch table_str dataset_name
    top_k client).1

/-- A dataset loader as `task_run` consumes it: the table lookup map of
`get_table_id_to_table` (composed with the markdown rendering, see
`fillRetrievalResultsWithTableStrs`) and the finite sequence of query
batches produced by `get_queries_for_task(batch_size)`. -/
structure DatasetLoader where
  table_id_to_table : (String × String) → String
  query_batches : List QueryBatch

/-- The abstract downstream hooks of `AbsTask`
(`src/tasks/AbsTask.py`, lines 341 to 388), implemented by each concrete
task over its own mutable state `St` and performance model `D`. -/
structure TaskHooks (St D : Type) where
  get_downstream_task_results :
    St → QueryBatch → List RetrievalResultDataModel → String →
      Except PyError (St × List DownstreamGeneratedResultDataModel)
  update_downstream_task_metrics :
    St → QueryBatch → List DownstreamGeneratedResultDataModel →
      Except PyError St
  calculate_downstream_task_performance :
    St → Except PyError (St × D)

/-- Embedding of `TaskResultsDataModel`
(`src/tasks/TasksDataModels.py`, as used by `task_run`). -/
structure TaskResultsDataModel (D : Type) where
  retrieval_performance : RetrievalPerformanceDataModel
  downstream_task_performance : D

/-- The dict-keys subset test of the first `task_run` assertion,
`self.dataset_config.keys() <= dataset_loaders.keys()`
(`src/tasks/AbsTask.py`, lines 176 to 178). -/
def keysSubset (config_keys loader_keys : List String) : Bool :=
  config_keys.all (fun k => loader_keys.contains k)

/-- The per-batch body of the `task_run` loop
(`src/tasks/AbsTask.py`, lines 191 to 211): retrieve, update the
retrieval counters, generate downstream results, update the downstream
metrics. -/
def runBatch {St D : Type} (hooks : TaskHooks St D) (retriever : Retriever)
    (client : Option Client) (dataset_name : String)
    (table_str : (String × String) → String) (top_k : Nat)
    (state : RetrievalCounters × St) (query_batch : QueryBatch) :
    Except PyError (RetrievalCounters × St) := do
  let retrieved ← getRetrievalResults retriever query_batch table_str
    dataset_name top_k client
  let counters := updateRetrievalMetrics state.1 query_batch retrieved
  let (st, downstream_results) ← hooks.get_downstream_task_results state.2
    query_batch retrieved dataset_name
  let st ← hooks.update_downstream_task_metrics st query_batch
    downstream_results
  pure (counters, st)

/-- The per-dataset body of the `task_run` loop
(`src/tasks/AbsTask.py`, lines 188 to 221): run every batch, then
finalize the retrieval performance and the downstream performance. -/
def runDataset {St D : Type} (hooks : TaskHooks St D)
    (retriever : Retriever) (client : Option Client) (top_k : Nat)
    (state : RetrievalCounters × St) (entry : String × DatasetLoader) :
    Except PyError ((RetrievalCounters × St) × TaskResultsDataModel D) := do
  let state ← entry.2.query_batches.foldlM
    (runBatch hooks retriever client entry.1 entry.2.table_id_to_table
      top_k) state
  let (perf, counters) ← calculateTableRetrievalPerformance state.1 top_k
  let (st, dperf) ← hooks.calculate_downstream_task_performance state.2
  pure ((counters, st),
    { retrieval_performance := perf, downstream_task_performance := dperf })

/-- Embedding of `AbsTask.task_run`
(`src/tasks/AbsTask.py`, lines 153 to 222): assert that the configured
dataset names are a subset of the loader keys, assert that the retriever
is an instance of one of the two recognized shapes, then run every
loader in order, threading the task state. -/
def task_run {St D : Type} (hooks : TaskHooks St D) (retriever : Retriever)
    (config_keys : List String)
    (dataset_loaders : List (String × DatasetLoader))
    (client : Option Client) (top_k : Nat)
    (state : RetrievalCounters × St) :
    Except PyError (List (String × TaskResultsDataModel D)) :=
  if keysSubset config_keys (dataset_loaders.map Prod.fst) then
    match retriever with
    | .other t =>
      .error (.assertionError
        ("the passed in retriever doesnt correctly inherit from the standardized or custom retriever classes "
          ++ t))
    | _ =>
      (dataset_loaders.foldlM (fun acc entry => do
        let (state, results) := acc
        let (state, tr) ← runDataset hooks retriever client top_k state
          entry
        pure (state, results ++ [(entry.1, tr)]))
        (state, ([] : List (String × TaskResultsDataModel D)))).map
        Prod.snd
  else
    .error (.assertionError
      "tasks dataset config is not a subset of the dataset loaders passed in")

/-- Trivial downstream hooks over a unit state, used to instantiate the
driver loop at concrete inputs. -/
def trivialHooks : TaskHooks Unit Unit :=
  { get_downstream_task_results := fun s _ _ _ => .ok (s, [])
    update_downstream_task_metrics := fun s _ _ => .ok s
    calculate_downstream_task_performance := fun s => .ok (s, ()) }

/-- The mutable instance state of `Text2SQLTask`
(`src/tasks/Text2SQLTask.py`, lines 70 to 79). The `pred_answers` field
is an `Option` because no constructor ever creates that attribute: the
method on lines 153 to 179 reads it anyway, and a `none` here models the
absent Python attribute. -/
structure Text2SQLState where
  include_ves : Bool
  pred_answers : Option (List String)
  pred_sql : List (String × String)
  ref_sql : List (String × String)
  difficulties : List String
  current_dataset : Option String
  database_dirs : Option (List (String × String))
deriving Repr, DecidableEq

/-- The state established by `Text2SQLTask.__init__`
(`src/tasks/Text2SQLTask.py`, lines 70 to 79): the ves flag as computed
from the metrics, empty accumulator lists, no current dataset, no
database directories, and no `pred_answers` attribute. -/
def text2SQLFreshState (include_ves : Bool) : Text2SQLState :=
  { include_ves := include_ves, pred_answers := none, pred_sql := [],
    ref_sql := [], difficulties := [], current_dataset := none,
    database_dirs := none }

/-- The metric validation of `Text2SQLTask.__init__`
(`src/tasks/Text2SQLTask.py`, lines 62 to 79): every requested metric
must be an available one, and the ves flag records whether
execution_ves was requested. -/
def text2SQLTaskInit (metrics : List String) :
    Except PyError Text2SQLState :=
  if metrics.all (fun m =>
      (["execution_accuracy", "execution_ves"] : List String).contains m)
  then .ok (text2SQLFreshState (metrics.contains "execution_ves"))
  else .error (.valueError "the metric is not one of the available metrics")

/-- Embedding of `Text2SQLTask._get_schema`
(`src/tasks/Text2SQLTask.py`, lines 105 to 122). The sqlite catalog
query of line 115 is modelled by the external map
`sqlite_schema_tables` from the database file path to its
(table name, DDL sql) rows; the rendering concatenates the database
name header with one table-name-plus-schema block per table. -/
def getSchema (database_dirs : Option (List (String × String)))
    (sqlite_schema_tables : String → List (String × String))
    (dataset_name database_id : String) : Except PyError String :=
  match database_dirs with
  | none =>
    .error (.typeError "argument of type NoneType is not iterable")
  | some dirs =>
    match dirs.lookup dataset_name with
    | none =>
      .error (.valueError
        ("dataset " ++ dataset_name ++
          " does not have a database directory setup"))
    | some dir =>
      let db_path := dir ++ "/" ++ database_id ++ "/" ++ database_id ++
        ".sqlite"
      .ok ((sqlite_schema_tables db_path).foldl
        (fun acc t =>
          acc ++ "Table Name: " ++ t.1 ++ "\n Schema:\n" ++ t.2 ++ "\n")
        ("Database Name: " ++ database_id ++ "\n"))

/-- The required positional parameters of `Text2SQLTask._get_schema`
(`src/tasks/Text2SQLTask.py`, line 105): dataset_name and database_id. -/
def getSchemaParams : List String := ["dataset_name", "database_id"]

/-- The positional arguments supplied at the call site
`self._get_schema(id[0])` on line 141 of `src/tasks/Text2SQLTask.py`:
only the first component of the retrieved (database id, table id)
pair. -/
def getSchemaCallArgs (id : String × String) : List String := [id.1]

/-- Python call semantics for an invocation of `_get_schema` with an
explicit positional argument list: any number of arguments other than
the two required parameters raises TypeError; exactly two dispatch to
the method body. -/
def callGetSchema (database_dirs : Option (List (String × String)))
    (sqlite_schema_tables : String → List (String × String))
    (args : List String) : Except PyError String :=
  match args with
  | [dataset_name, database_id] =>
    getSchema database_dirs sqlite_schema_tables dataset_name database_id
  | _ =>
    .error (.typeError
      "get_schema number of positional arguments does not match the 2 required parameters")

/-- Python truthiness of the optional `current_dataset` string: `None`
and the empty string are falsy (`if not self.current_dataset`). -/
def strFalsy : Option String → Bool
  | none => true
  | some s => s.isEmpty

/-- Embedding of `Text2SQLTask._get_downstream_task_results`
(`src/tasks/Text2SQLTask.py`, lines 124 to 151): remember the first
dataset name seen, then for every (query id, query, retrieval result)
triple build the table string for the generator by joining with a
newline, over the retrieved pairs in ranked order, the outcome of the
call `self._get_schema(id[0])` (see `getSchemaCallArgs`), and invoke the
external generator `generate` on it together with the query text. -/
def text2SQLGetDownstreamTaskResults (st : Text2SQLState)
    (generate : String → String → String)
    (sqlite_schema_tables : String → List (String × String))
    (query_batch : QueryBatch)
    (retrieval_results : List RetrievalResultDataModel)
    (dataset_name : String) :
    Except PyError
      (Text2SQLState × List DownstreamGeneratedResultDataModel) := do
  let st := if strFalsy st.current_dataset then
      { st with current_dataset := some dataset_name } else st
  let results ← ((query_batch.query_ids.zip query_batch.queries).zip
      retrieval_results).mapM (fun p => do
    let schemas ← p.2.retrieval_results.mapM (fun id =>
      callGetSchema st.database_dirs sqlite_schema_tables
        (getSchemaCallArgs id))
    pure { dataset_name := dataset_name, query_id := p.1.1,
           generated_results :=
             generate (String.intercalate "\n" schemas) p.1.2 })
  pure (st, results)

/-- Splitting a character list at its first tab character. -/
def splitFirstTabChars : List Char → Option (List Char × List Char)
  | [] => none
  | c :: cs =>
    if c = '\t' then some ([], cs)
    else
      match splitFirstTabChars cs with
      | none => none
      | some (l, r) => some (c :: l, r)

/-- Python `generated_results.split("\t", 1)` as used on line 170 of
`src/tasks/Text2SQLTask.py`: split at the first tab only; `none` when
the string holds no tab, in which case the Python split yields a single
piece and the length check on line 171 fails. -/
def splitFirstTab (s : String) : Option (String × String) :=
  match splitFirstTabChars s.toList with
  | none => none
  | some (l, r) => some (l.asString, r.asString)

/-- The for loop of `Text2SQLTask._update_downstream_task_metrics`
(`src/tasks/Text2SQLTask.py`, lines 169 to 175): append the
(predicted sql, predicted database id) split of each generated result to
`pred_sql`, raising ValueError at the first result that does not split.
Appends made before the raise persist, as Python instance mutation
does. -/
def appendPredSqlLoop :
    Text2SQLState → List DownstreamGeneratedResultDataModel →
      Text2SQLState × Option PyError
  | st, [] => (st, none)
  | st, r :: rest =>
    match splitFirstTab r.generated_results with
    | some pair =>
      appendPredSqlLoop { st with pred_sql := st.pred_sql ++ [pair] } rest
    | none =>
      (st, some (.valueError
        ("could not parse the sql and the corresponding database given result "
          ++ r.generated_results)))

/-- The `self.pred_answers.extend(...)` statement of lines 163 to 168 of
`src/tasks/Text2SQLTask.py`, given that the attribute holds `answers`:
the generated result strings are appended to it. -/
def withAppendedAnswers (st : Text2SQLState) (answers : List String)
    (drs : List DownstreamGeneratedResultDataModel) : Text2SQLState :=
  { st with pred_answers := some (answers ++ drs.map (·.generated_results)) }

/-- Embedding of `Text2SQLTask._update_downstream_task_metrics`
(`src/tasks/Text2SQLTask.py`, lines 153 to 179). The first statement
reads `self.pred_answers`, an attribute no constructor ever creates, so
a state without it raises AttributeError at once; otherwise the
generated results are appended to it, the tab-splits to `pred_sql`, and
on success the reference (answer, database id) zip and the difficulty
labels are appended. The state returned alongside an error reflects the
mutations made before the raise. -/
def text2SQLUpdateDownstreamTaskMetrics (st : Text2SQLState)
    (query_batch : QueryBatch)
    (downstream_results : List DownstreamGeneratedResultDataModel) :
    Text2SQLState × Option PyError :=
  match st.pred_answers with
  | none =>
    (st, some (.attributeError
      "Text2SQLTask object has no attribute pred_answers"))
  | some answers =>
    let st1 := withAppendedAnswers st answers downstream_results
    match appendPredSqlLoop st1 downstream_results with
    | (st2, some e) => (st2, some e)
    | (st2, none) =>
      ({ st2 with
          ref_sql := st2.ref_sql ++
            query_batch.answers.zip query_batch.database_ids,
          difficulties := st2.difficulties ++ query_batch.difficulties },
        none)

/-- The abstract methods declared by `AbsTask`
(`src/tasks/AbsTask.py`, lines 81 to 95, 146 to 151 and 341 to 388). -/
def absTaskAbstractMethods : List String :=
  ["get_default_task_name", "get_available_metrics",
   "_get_default_dataset_config", "_get_downstream_task_results",
   "_update_downstream_task_metrics",
   "_calculate_downstream_task_performance"]

/-- The methods `TableRetrievalTask` defines
(`src/tasks/TableRetrievalTask.py`). -/
def tableRetrievalTaskMethods : List String :=
  ["__init__", "get_default_task_name", "_get_default_dataset_config",
   "_get_downstream_task_results", "_update_downstream_task_results",
   "_calculate_downstream_task_metrics"]

/-- The constructor arguments of `TableRetrievalTask.__init__`
(`src/tasks/TableRetrievalTask.py`, lines 15 to 29); the generator
argument is modelled by an optional tag naming the generator passed. -/
structure TableRetrievalTaskArgs where
  task_name : Option String
  datasets_config : Option (List (String × List (String × String)))
  overwrite_default_datasets : Bool
  task_generator : Option String
deriving Repr, DecidableEq

/-- Python abstract-base-class instantiation semantics applied to
`TableRetrievalTask`: construction raises TypeError whenever some
abstract method of `AbsTask` is not overridden in the class, and this
check happens before `__init__` runs, so it is independent of the
arguments supplied. -/
def instantiateTableRetrievalTask (_args : TableRetrievalTaskArgs) :
    Except PyError Unit :=
  let missing := absTaskAbstractMethods.filter
    (fun m => !(tableRetrievalTaskMethods.contains m))
  if missing.isEmpty then .ok ()
  else .error (.typeError
    ("cannot instantiate abstract class TableRetrievalTask with abstract methods "
      ++ String.intercalate " " missing))

/-- Modelled from the spec: the outcome of executing one SQL query
against a sqlite database file under the wall-clock timeout — produced
result rows, a timeout, or an execution error. The function
`evaluate_sql_execution` is imported from `tasks/utils.py`
(`src/tasks/Text2SQLTask.py`, line 27), a module that is not among the
sources, so the evaluator here follows the spec wording of section
4.5. -/
inductive ExecOutcome where
  | resultRows (rs : List (List String))
  | timeout
  | execError (msg : String)
deriving Repr, DecidableEq

/-- Modelled from the spec: one scored row of the SQL execution
evaluator — the reference and predicted execution outcomes, the
efficiency reward the VES curve would assign when the prediction is
correct (the exact saturation curve is left open by the spec), and the
difficulty label of the row. -/
structure EvalRow where
  ref_outcome : ExecOutcome
  pred_outcome : ExecOutcome
  efficiency : ℚ
  difficulty : String

/-- Modelled from the spec: the execution-accuracy contribution of a row
is 1 iff both executions produced result sets equal as multisets
(order-insensitive set-equivalence), else 0; a timeout or execution
error on either query is a mismatch for that row. -/
def rowExecutionAccuracy (ref pred : ExecOutcome) : ℚ :=
  match ref, pred with
  | .resultRows r, .resultRows p =>
    if (r : Multiset (List String)) = (p : Multiset (List String)) then 1
    else 0
  | _, _ => 0

/-- Modelled from the spec: the VES contribution of a row is the
efficiency reward gated by correctness — an incorrect prediction scores
0 regardless of timing. -/
def rowVES (ref pred : ExecOutcome) (efficiency : ℚ) : ℚ :=
  if rowExecutionAccuracy ref pred = 1 then efficiency else 0

/-- Modelled from the spec: the accuracy numerator over the scored
rows. -/
def totalExecutionAccuracy (rows : List EvalRow) : ℚ :=
  (rows.map (fun r =>
    rowExecutionAccuracy r.ref_outcome r.pred_outcome)).sum

/-- Modelled from the spec: the VES numerator over the scored rows. -/
def totalVES (rows : List EvalRow) : ℚ :=
  (rows.map (fun r =>
    rowVES r.ref_outcome r.pred_outcome r.efficiency)).sum

/-- Modelled from the spec: the overall scores of the SQL execution
evaluator. -/
structure SQLExecutionScores where
  execution_accuracy : ℚ
  execution_ves : Option ℚ
deriving Repr, DecidableEq

/-- Modelled from the spec: the evaluator aggregates the row
contributions into overall scores; it is a total function — row-level
timeouts and execution errors are absorbed into the metric and no
exception escapes. -/
def evaluate_sql_execution (rows : List EvalRow) (include_ves : Bool) :
    SQLExecutionScores :=
  { execution_accuracy := totalExecutionAccuracy rows / rows.length,
    execution_ves :=
      if include_ves then some (totalVES rows / rows.length) else none }

/-- Characterization of the metric-update fold: the true-positive counter
grows by the number of zipped queries whose gold pair is retrieved, and
the total counter grows by the number of zipped queries. -/
theorem foldl_retrievalStep
    (l : List ((String × String) × RetrievalResultDataModel))
    (s : RetrievalCounters) :
    l.foldl retrievalStep s =
      { true_positive := s.true_positive + l.countP goldHit,
        total_queries_processed :=
          s.total_queries_processed + l.length } := by
  induction l generalizing s with
  | nil => simp
  | cons a t ih =>
    simp only [List.foldl_cons, ih, List.countP_cons, List.length_cons]
    simp only [retrievalStep, goldHit]
    by_cases h : a.1 ∈ a.2.retrieval_results
    · simp [h]
      omega
    · simp [h]
      omega

/-- C1: the retrieval-metrics update increments the true-positive counter
by exactly 1 for a query iff the gold (database id, table id) pair of the
query is a member of the retrieved id list of the query (membership
anywhere, independent of rank), and increments total_queries_processed by
exactly 1 per query unconditionally; finalization returns
accuracy = true_positive / total_queries_processed, and the three-query
example of the spec with hits on queries 1 and 3 finalizes to 2/3. -/
theorem retrieval_metrics_hit_counting_and_accuracy :
    (∀ (s : RetrievalCounters) (batch : QueryBatch)
        (results : List RetrievalResultDataModel),
        updateRetrievalMetrics s batch results =
          { true_positive :=
              s.true_positive + (zippedRetrieval batch results).countP goldHit,
            total_queries_processed :=
              s.total_queries_processed +
                (zippedRetrieval batch results).length })
    ∧ (∀ (p : (String × String) × RetrievalResultDataModel),
        goldHit p = true ↔ p.1 ∈ p.2.retrieval_results)
    ∧ (∀ (tp n k : Nat),
        calculateTableRetrievalPerformance ⟨tp, n + 1⟩ k =
          .ok ({ k := k, accuracy := (tp : ℚ) / ((n + 1 : Nat) : ℚ) },
               initCounters))
    ∧ calculateTableRetrievalPerformance
        (updateRetrievalMetrics initCounters exampleBatch exampleResults) 2 =
        .ok ({ k := 2, accuracy := 2 / 3 }, initCounters) := by
  refine ⟨?_, ?_, ?_, ?_⟩
  · intro s batch results
    exact foldl_retrievalStep _ s
  · intro p
    simp [goldHit]
  · intro tp n k
    simp [calculateTableRetrievalPerformance, initCounters]
  · have h : updateRetrievalMetrics initCounters exampleBatch exampleResults =
        ⟨2, 3⟩ := by decide
    rw [h]
    simp only [calculateTableRetrievalPerformance, initCounters]
    norm_num

/-- C2: true_positive is at most total_queries_processed after every
update whenever it held before, both counters are zero at construction,
and a successful finalization hands back the zeroed counter state, so a
task instance is reusable for the next dataset. -/
theorem counters_zero_init_invariant_and_reset :
    (initCounters.true_positive = 0 ∧
      initCounters.total_queries_processed = 0)
    ∧ (∀ (s : RetrievalCounters) (batch : QueryBatch)
        (results : List RetrievalResultDataModel),
        s.true_positive ≤ s.total_queries_processed →
        (updateRetrievalMetrics s batch results).true_positive ≤
          (updateRetrievalMetrics s batch results).total_queries_processed)
    ∧ (∀ (s : RetrievalCounters) (k : Nat)
        (perf : RetrievalPerformanceDataModel) (s2 : RetrievalCounters),
        calculateTableRetrievalPerformance s k = .ok (perf, s2) →
        s2 = initCounters) := by
  refine ⟨⟨rfl, rfl⟩, ?_, ?_⟩
  · intro s batch results hle
    rw [updateRetrievalMetrics, foldl_retrievalStep]
    have hcount := List.countP_le_length goldHit
      (l := zippedRetrieval batch results)
    simp only
    omega
  · intro s k perf s2 h
    by_cases hz : s.total_queries_processed ≠ 0
    · simp only [calculateTableRetrievalPerformance, if_pos hz,
        Except.ok.injEq, Prod.mk.injEq] at h
      rw [← h.2]
      rfl
    · simp only [calculateTableRetrievalPerformance, if_neg hz,
        reduceCtorEq] at h

/-- Witness for C2 at concrete inputs. -/
theorem counters_zero_init_invariant_and_reset_witness :
    ((updateRetrievalMetrics ⟨1, 2⟩ exampleBatch exampleResults).true_positive ≤
      (updateRetrievalMetrics ⟨1, 2⟩ exampleBatch
        exampleResults).total_queries_processed)
    ∧ ((⟨0, 0⟩ : RetrievalCounters) = initCounters) :=
  ⟨counters_zero_init_invariant_and_reset.2.1 ⟨1, 2⟩ exampleBatch
      exampleResults (by decide),
   counters_zero_init_invariant_and_reset.2.2 ⟨1, 2⟩ 5
      ⟨5, (1 : ℚ) / 2⟩ ⟨0, 0⟩
      (by simp only [calculateTableRetrievalPerformance]; norm_num)⟩

/-- C3: finalizing the retrieval metrics with zero processed queries
always raises ValueError; no performance value is returned. -/
theorem finalize_zero_queries_always_raises :
    ∀ (tp k : Nat),
      calculateTableRetrievalPerformance ⟨tp, 0⟩ k =
        .error (.valueError "havent processed any queries") := by
  intro tp k
  simp [calculateTableRetrievalPerformance]

/-- C6: task_run fails fast on violated preconditions. Both conclusions
hold for every choice of hooks, loaders, client and state, so the error
is produced before any dataset or batch is processed: the result does
not depend on any dataset content or downstream hook. -/
theorem task_run_fails_fast_on_precondition_violation :
    (∀ (St D : Type) (hooks : TaskHooks St D) (retriever : Retriever)
        (config_keys : List String)
        (loaders : List (String × DatasetLoader))
        (client : Option Client) (top_k : Nat)
        (state : RetrievalCounters × St),
        keysSubset config_keys (loaders.map Prod.fst) = false →
        task_run hooks retriever config_keys loaders client top_k state =
          .error (.assertionError
            "tasks dataset config is not a subset of the dataset loaders passed in"))
    ∧ (∀ (St D : Type) (hooks : TaskHooks St D) (t : String)
        (config_keys : List String)
        (loaders : List (String × DatasetLoader))
        (client : Option Client) (top_k : Nat)
        (state : RetrievalCounters × St),
        keysSubset config_keys (loaders.map Prod.fst) = true →
        task_run hooks (.other t) config_keys loaders client top_k state =
          .error (.assertionError
            ("the passed in retriever doesnt correctly inherit from the standardized or custom retriever classes "
              ++ t))) := by
  constructor
  · intro St D hooks retriever config_keys loaders client top_k state h
    simp [task_run, h]
  · intro St D hooks t config_keys loaders client top_k state h
    simp [task_run, h]

/-- Witness for C6 at concrete inputs. -/
theorem task_run_fails_fast_witness :
    (task_run trivialHooks (.custom (fun _ _ _ => [])) ["a"] [] none 5
        (initCounters, ()) =
      .error (.assertionError
        "tasks dataset config is not a subset of the dataset loaders passed in"))
    ∧ (task_run trivialHooks (.other "SomeRetriever") [] [] none 5
        (initCounters, ()) =
      .error (.assertionError
        ("the passed in retriever doesnt correctly inherit from the standardized or custom retriever classes "
          ++ "SomeRetriever"))) :=
  ⟨task_run_fails_fast_on_precondition_violation.1 Unit Unit trivialHooks
      (.custom (fun _ _ _ => [])) ["a"] [] none 5 (initCounters, ())
      (by decide),
   task_run_fails_fast_on_precondition_violation.2 Unit Unit trivialHooks
      "SomeRetriever" [] [] none 5 (initCounters, ()) (by decide)⟩

/-- C7: for the standardized (client-dependent) retriever shape, a
missing client raises KeyError with zero retrieve_batch invocations (the
error does not depend on the retriever function, which is never called),
and a present client performs exactly one retrieve_batch call for the
batch, whose results are returned filled with table strings. -/
theorem standardized_retriever_client_requirement :
    (∀ (f : Client → QueryBatch → String → Nat →
          List RetrievalResultDataModel)
        (qb : QueryBatch) (ts : (String × String) → String)
        (name : String) (k : Nat),
        getRetrievalResultsCounted (.standard f) qb ts name k none =
          (.error (.keyError
            "missing kwarg client required for standardized retriever"),
           0))
    ∧ (∀ (f : Client → QueryBatch → String → Nat →
          List RetrievalResultDataModel)
        (qb : QueryBatch) (ts : (String × String) → String)
        (name : String) (k : Nat) (c : Client),
        getRetrievalResultsCounted (.standard f) qb ts name k (some c) =
          (.ok (fillRetrievalResultsWithTableStrs (f c qb name k) ts),
           1)) :=
  ⟨fun _ _ _ _ _ => rfl, fun _ _ _ _ _ _ => rfl⟩

/-- If some result in the list does not split at a tab, the append loop
surfaces an error. -/
theorem appendPredSqlLoop_error_of_unparsable (st : Text2SQLState)
    (drs : List DownstreamGeneratedResultDataModel)
    (h : ∃ r ∈ drs, splitFirstTab r.generated_results = none) :
    ((appendPredSqlLoop st drs).2).isSome := by
  induction drs generalizing st with
  | nil => simp at h
  | cons a t ih =>
    rcases h with ⟨r, hr, hnone⟩
    rcases List.mem_cons.mp hr with heq | hmem
    · subst heq
      simp [appendPredSqlLoop, hnone]
    · cases hsplit : splitFirstTab a.generated_results with
      | none => simp [appendPredSqlLoop, hsplit]
      | some pair =>
        simp only [appendPredSqlLoop, hsplit]
        exact ih _ ⟨r, hmem, hnone⟩

/-- C4 (evidence of the code slip): whenever a query of the batch has at
least one retrieved (database id, table id) pair, the downstream step of
the Text-to-SQL task raises TypeError: the call site passes _get_schema
one positional argument, `id[0]`, though the method requires the two
parameters dataset_name and database_id, so no schema string is built
and the generator is never invoked. The conclusion holds for every task
state, generator and schema catalog. -/
theorem text2sql_downstream_schema_call_raises_typeError :
    ∀ (st : Text2SQLState) (generate : String → String → String)
      (sqlite_schema_tables : String → List (String × String))
      (qid : Nat) (q dataset_name rname db table : String)
      (rest : List (String × String)),
      text2SQLGetDownstreamTaskResults st generate sqlite_schema_tables
        { query_ids := [qid], queries := [q], database_ids := [db],
          table_ids := [table], answers := [], difficulties := [] }
        [{ dataset_name := rname, query_id := qid,
           retrieval_results := (db, table) :: rest }] dataset_name =
        .error (.typeError
          "get_schema number of positional arguments does not match the 2 required parameters") := by
  intro st generate sqlite_schema_tables qid q dataset_name rname db
    table rest
  rfl

/-- C5 (evidence of the code slip): on the freshly constructed task
state of Text2SQLTask.__init__ the downstream-metrics update raises
AttributeError, for every query batch and every result list, because the
method reads self.pred_answers, which no constructor creates, before
performing any append — so none of the claimed appends to pred_sql,
ref_sql or difficulties ever happens and the state is unchanged. -/
theorem text2sql_update_metrics_raises_attributeError :
    ∀ (b : Bool) (query_batch : QueryBatch)
      (downstream_results : List DownstreamGeneratedResultDataModel),
      text2SQLUpdateDownstreamTaskMetrics (text2SQLFreshState b)
        query_batch downstream_results =
        (text2SQLFreshState b,
         some (.attributeError
           "Text2SQLTask object has no attribute pred_answers")) :=
  fun _ _ _ => rfl

/-- C8: a generated result whose text has no tab separator makes the
Text-to-SQL metrics update surface a fatal error to the caller in every
state; and when the pred_answers attribute is present, a batch headed by
such a result surfaces exactly the parse ValueError of the source. -/
theorem text2sql_unparsable_result_raises :
    (∀ (st : Text2SQLState) (query_batch : QueryBatch)
        (drs : List DownstreamGeneratedResultDataModel),
        (∃ r ∈ drs, splitFirstTab r.generated_results = none) →
        ((text2SQLUpdateDownstreamTaskMetrics st query_batch
          drs).2).isSome)
    ∧ (∀ (st : Text2SQLState) (answers : List String)
        (query_batch : QueryBatch)
        (r : DownstreamGeneratedResultDataModel)
        (rest : List DownstreamGeneratedResultDataModel),
        st.pred_answers = some answers →
        splitFirstTab r.generated_results = none →
        (text2SQLUpdateDownstreamTaskMetrics st query_batch
            (r :: rest)).2 =
          some (.valueError
            ("could not parse the sql and the corresponding database given result "
              ++ r.generated_results))) := by
  constructor
  · intro st query_batch drs h
    cases hp : st.pred_answers with
    | none => simp [text2SQLUpdateDownstreamTaskMetrics, hp]
    | some answers =>
      simp only [text2SQLUpdateDownstreamTaskMetrics, hp]
      have herr := appendPredSqlLoop_error_of_unparsable
        (withAppendedAnswers st answers drs) drs h
      rcases hloop : appendPredSqlLoop
        (withAppendedAnswers st answers drs) drs with ⟨st2, e⟩
      rw [hloop] at herr
      cases e with
      | none => simp at herr
      | some e2 => simp
  · intro st answers query_batch r rest hp hsplit
    simp [text2SQLUpdateDownstreamTaskMetrics, hp, appendPredSqlLoop,
      hsplit]

/-- Witness for C8 at concrete inputs. -/
theorem text2sql_unparsable_result_raises_witness :
    (((text2SQLUpdateDownstreamTaskMetrics
        { text2SQLFreshState false with pred_answers := some [] }
        exampleBatch
        [{ dataset_name := "ds", query_id := 1,
           generated_results := "SELECT 1 FROM t" }]).2).isSome)
    ∧ ((text2SQLUpdateDownstreamTaskMetrics
        { text2SQLFreshState false with pred_answers := some [] }
        exampleBatch
        [{ dataset_name := "ds", query_id := 1,
           generated_results := "SELECT 1 FROM t" }]).2 =
      some (.valueError
        ("could not parse the sql and the corresponding database given result "
          ++ "SELECT 1 FROM t"))) :=
  ⟨text2sql_unparsable_result_raises.1
      { text2SQLFreshState false with pred_answers := some [] }
      exampleBatch
      [{ dataset_name := "ds", query_id := 1,
         generated_results := "SELECT 1 FROM t" }]
      ⟨{ dataset_name := "ds", query_id := 1,
         generated_results := "SELECT 1 FROM t" },
       List.mem_singleton.mpr rfl, by decide⟩,
   text2sql_unparsable_result_raises.2
      { text2SQLFreshState false with pred_answers := some [] } []
      exampleBatch
      { dataset_name := "ds", query_id := 1,
        generated_results := "SELECT 1 FROM t" } [] rfl (by decide)⟩

/-- C9 (spec-modelled evaluator): a timeout or an execution error on the
predicted query contributes 0 to execution accuracy and 0 to VES for
that row — prepending such a row leaves both aggregate numerators
unchanged — and the evaluator is a total function into scores, so no
exception propagates out of it. -/
theorem sql_evaluator_pred_failure_is_local_mismatch :
    (∀ (ref : ExecOutcome) (eff : ℚ),
        rowExecutionAccuracy ref .timeout = 0 ∧
          rowVES ref .timeout eff = 0)
    ∧ (∀ (ref : ExecOutcome) (eff : ℚ) (msg : String),
        rowExecutionAccuracy ref (.execError msg) = 0 ∧
          rowVES ref (.execError msg) eff = 0)
    ∧ (∀ (ref : ExecOutcome) (eff : ℚ) (d : String)
        (rest : List EvalRow),
        totalExecutionAccuracy
            ({ ref_outcome := ref, pred_outcome := .timeout,
               efficiency := eff, difficulty := d } :: rest) =
          totalExecutionAccuracy rest ∧
        totalVES
            ({ ref_outcome := ref, pred_outcome := .timeout,
               efficiency := eff, difficulty := d } :: rest) =
          totalVES rest) := by
  have hacc : ∀ (ref : ExecOutcome), rowExecutionAccuracy ref .timeout = 0 := by
    intro ref
    cases ref <;> rfl
  have herr : ∀ (ref : ExecOutcome) (msg : String),
      rowExecutionAccuracy ref (.execError msg) = 0 := by
    intro ref msg
    cases ref <;> rfl
  refine ⟨?_, ?_, ?_⟩
  · intro ref eff
    refine ⟨hacc ref, ?_⟩
    rw [rowVES, hacc ref]
    norm_num
  · intro ref eff msg
    refine ⟨herr ref msg, ?_⟩
    rw [rowVES, herr ref msg]
    norm_num
  · intro ref eff d rest
    constructor
    · rw [totalExecutionAccuracy, List.map_cons, List.sum_cons]
      simp only [hacc ref]
      rw [zero_add]
      rfl
    · rw [totalVES, List.map_cons, List.sum_cons]
      simp only [rowVES, hacc ref]
      norm_num
      rfl

/-- C10: every attempt to construct a TableRetrievalTask fails with a
TypeError, for all constructor arguments, because the class never
overrides the abstract hooks _update_downstream_task_metrics and
_calculate_downstream_task_performance declared by AbsTask — it defines
the differently named _update_downstream_task_results and
_calculate_downstream_task_metrics instead — leaving it an abstract
class. -/
theorem tableRetrievalTask_construction_raises_typeError :
    (∀ (args : TableRetrievalTaskArgs),
        instantiateTableRetrievalTask args =
          .error (.typeError
            ("cannot instantiate abstract class TableRetrievalTask with abstract methods "
              ++ "get_available_metrics _update_downstream_task_metrics _calculate_downstream_task_performance")))
    ∧ (absTaskAbstractMethods.contains
          "_update_downstream_task_metrics" = true ∧
        tableRetrievalTaskMethods.contains
          "_update_downstream_task_metrics" = false)
    ∧ (absTaskAbstractMethods.contains
          "_calculate_downstream_task_performance" = true ∧
        tableRetrievalTaskMethods.contains
          "_calculate_downstream_task_performance" = false)
    ∧ tableRetrievalTaskMethods.contains
        "_update_downstream_task_results" = true
    ∧ tableRetrievalTaskMethods.contains
        "_calculate_downstream_task_metrics" = true := by
  refine ⟨?_, by decide, by decide, by decide, by decide⟩
  intro args
  rfl

end Target
